import Mathlib

/-!
Shallow embedding of the SmartFreeze core (baremetal-win11 repository):
process data model (`src/process.rs`), categorizer (`src/categorization.rs`),
freeze engine (`src/freeze_engine.rs`), persistence (`src/persistence.rs`)
and the daemon service loop (`src/daemon/service.rs`, `src/daemon/state.rs`).

Machine integers (`u32` pids, `u64` memory / timestamps) are modelled as
`Nat`; where the source's `u64` subtraction can underflow, the release-mode
two's-complement wrap is made explicit with `% 2^64` and the debug-mode
checked subtraction is modelled as an `Option`.  Fallible Rust functions
(`Result`) become `Except`.  OS effects (enumeration, suspend, resume,
file I/O, clock reads) are passed in as explicit inputs, and the daemon
loop body is modelled as a pure state-transition function that also emits
the ordered list of OS/persistence calls it makes.
-/

/-- `ProcessCategory` from `src/process.rs`. -/
inductive ProcessCategory where
  | Critical
  | Gaming
  | Communication
  | BackgroundService
  | Productivity
  | Unknown
deriving DecidableEq, Repr

/-- `ProcessInfo` from `src/process.rs`.  The unused `cpu_percent : f64`
field (always `0.0`, never read by the core logic) is omitted: floating
point plays no role in any modelled operation. -/
structure ProcessInfo where
  pid : Nat
  name : String
  full_path : String
  memory_mb : Nat
  is_foreground : Bool
  category : ProcessCategory
deriving DecidableEq, Repr

/-- `ProcessInfo::is_safe_to_freeze` from `src/process.rs`. -/
def ProcessInfo.is_safe_to_freeze (p : ProcessInfo) (keep_communication : Bool) : Bool :=
  !p.is_foreground
    && !(p.category == ProcessCategory.Critical)
    && !(p.category == ProcessCategory.Gaming)
    && !(keep_communication && (p.category == ProcessCategory.Communication))

/-- ASCII lower-casing of one character, as done by Rust's
`char::to_ascii_lowercase` and (on the ASCII range used by all the
pattern lists) `str::to_lowercase`. -/
def asciiLowerChar (c : Char) : Char :=
  if 'A' ≤ c && c ≤ 'Z' then Char.ofNat (c.toNat + 32) else c

/-- String lower-casing (`str::to_lowercase`, restricted to the ASCII
case mapping, which covers every pattern list in the source). -/
def lowerStr (s : String) : String :=
  String.mk (s.data.map asciiLowerChar)

/-- `a.eq_ignore_ascii_case(b)` from Rust's standard library. -/
def eqIgnoreAsciiCase (a b : String) : Bool :=
  lowerStr a == lowerStr b

/-- `pat` is a leading segment of `l`. -/
def leadsWith [BEq α] : List α → List α → Bool
  | [], _ => true
  | _ :: _, [] => false
  | a :: as, b :: bs => a == b && leadsWith as bs

/-- `pat` occurs as a contiguous run somewhere in `hay`
(Rust `str::contains` on the underlying character lists). -/
def occursIn [BEq α] (pat : List α) : List α → Bool
  | [] => leadsWith pat []
  | c :: rest => leadsWith pat (c :: rest) || occursIn pat rest

/-- Rust `hay.contains(pat)` for strings. -/
def strContainsSub (hay pat : String) : Bool :=
  occursIn pat.data hay.data

/-- `DefaultCategorizer` from `src/categorization.rs`: its only field is
the auxiliary parent-pid map (`HashMap<u32, u32>`, modelled as an
association list with most-recent insertion first). -/
structure DefaultCategorizer where
  parent_map : List (Nat × Nat)
deriving DecidableEq, Repr

/-- `DefaultCategorizer::update_parent_map`. -/
def DefaultCategorizer.update_parent_map
    (c : DefaultCategorizer) (pid parent_pid : Nat) : DefaultCategorizer :=
  if pid ≠ 0 then { c with parent_map := (pid, parent_pid) :: c.parent_map } else c

/-- `DefaultCategorizer::is_gaming_by_name` from `src/categorization.rs`. -/
def is_gaming_by_name (name : String) : Bool :=
  let name_lower := lowerStr name
  if strContainsSub name_lower "steam"
      || strContainsSub name_lower "epic"
      || strContainsSub name_lower "origin"
      || strContainsSub name_lower "gog"
      || strContainsSub name_lower "battle.net"
      || strContainsSub name_lower "battlenet"
      || strContainsSub name_lower "uplay"
      || strContainsSub name_lower "ubisoft" then
    true
  else if strContainsSub name_lower "easyanticheat"
      || strContainsSub name_lower "battleye"
      || strContainsSub name_lower "vanguard" then
    true
  else if strContainsSub name_lower "game" && strContainsSub name_lower ".exe" then
    true
  else
    false

/-- The fixed directory-substring list of
`DefaultCategorizer::is_gaming_by_path`. -/
def gaming_paths : List String :=
  ["\\steam\\", "\\steamapps\\", "\\steamlibrary\\", "\\epic games\\",
   "\\epicgames\\", "\\origin games\\", "\\gog galaxy\\", "\\gog games\\",
   "\\battle.net\\", "\\ubisoft\\", "\\ea games\\", "\\riot games\\",
   "\\games\\", "\\my games\\"]

/-- `DefaultCategorizer::is_gaming_by_path` from `src/categorization.rs`. -/
def is_gaming_by_path (path : String) : Bool :=
  let path_lower := lowerStr path
  gaming_paths.any (fun pattern => strContainsSub path_lower pattern)

/-- The fixed list of `DefaultCategorizer::is_communication`. -/
def communication_apps : List String :=
  ["discord", "slack", "teams", "telegram", "signal", "whatsapp", "zoom",
   "skype", "mumble", "teamspeak", "ventrilo", "element", "riot"]

/-- `DefaultCategorizer::is_communication` from `src/categorization.rs`. -/
def is_communication (name : String) : Bool :=
  let name_lower := lowerStr name
  communication_apps.any (fun app => strContainsSub name_lower app)

/-- The fixed list of `DefaultCategorizer::is_background_service`. -/
def background_services : List String :=
  ["updater", "update", "helper", "sync", "backup", "nvidia", "amd",
   "geforce", "radeon", "onedrive", "dropbox", "google drive", "toolbox"]

/-- `DefaultCategorizer::is_background_service` from `src/categorization.rs`. -/
def is_background_service (name : String) : Bool :=
  let name_lower := lowerStr name
  background_services.any (fun service => strContainsSub name_lower service)

/-- The fixed list of `DefaultCategorizer::is_productivity`. -/
def productivity_apps : List String :=
  ["chrome", "firefox", "edge", "opera", "brave", "vivaldi", "excel",
   "word", "powerpoint", "outlook", "onenote", "vscode", "code", "pycharm",
   "intellij", "rider", "sublime", "spotify", "vlc", "itunes", "notion",
   "obsidian"]

/-- `DefaultCategorizer::is_productivity` from `src/categorization.rs`. -/
def is_productivity (name : String) : Bool :=
  let name_lower := lowerStr name
  productivity_apps.any (fun app => strContainsSub name_lower app)

/-- The fixed critical-name list of `DefaultCategorizer::is_critical`. -/
def critical_names : List String :=
  ["system", "smss.exe", "csrss.exe", "wininit.exe", "services.exe",
   "lsass.exe", "svchost.exe", "winlogon.exe", "explorer.exe", "dwm.exe",
   "textinputhost.exe", "searchhost.exe", "startmenuexperiencehost.exe"]

/-- `DefaultCategorizer::is_critical` from `src/categorization.rs`
(exact ASCII-case-insensitive name equality against the fixed list). -/
def is_critical (name : String) : Bool :=
  critical_names.any (fun c => eqIgnoreAsciiCase name c)

/-- `DefaultCategorizer::categorize` from `src/categorization.rs`.
The `pid` argument is declared but unused in the source (`_pid`), and
the body reads no field of `self` (in particular not `parent_map`). -/
def DefaultCategorizer.categorize
    (_c : DefaultCategorizer) (_pid : Nat) (name path : String) : ProcessCategory :=
  if is_critical name then
    ProcessCategory.Critical
  else if is_gaming_by_path path || is_gaming_by_name name then
    ProcessCategory.Gaming
  else if is_communication name then
    ProcessCategory.Communication
  else if is_background_service name then
    ProcessCategory.BackgroundService
  else if is_productivity name then
    ProcessCategory.Productivity
  else
    ProcessCategory.Unknown

/-- `SmartFreezeError` from `src/lib.rs` (payloads modelled as the data
the source carries; `std::io::Error` / `serde_json::Error` payloads are
reduced to their message strings). -/
inductive SmartFreezeError where
  | ProcessEnumeration (msg : String)
  | FreezeFailed (pid : Nat) (reason : String)
  | ResumeFailed (pid : Nat) (reason : String)
  | ProcessNotFound (pid : Nat)
  | IoError (msg : String)
  | Serialization (msg : String)
  | Registry (msg : String)
deriving DecidableEq, Repr

/-- `Result<T>` from `src/lib.rs`. -/
abbrev SFResult (α : Type) : Type := Except SmartFreezeError α

/-- `FreezeConfig` from `src/freeze_engine.rs`. -/
structure FreezeConfig where
  min_memory_mb : Nat
  keep_communication : Bool
deriving DecidableEq, Repr

/-- `FreezeConfig::default`. -/
def FreezeConfig.default : FreezeConfig :=
  { min_memory_mb := 100, keep_communication := false }

/-- `FreezeEngine::find_safe_to_freeze` from `src/freeze_engine.rs`, with
the enumerator's `enumerate()` outcome passed in explicitly (the `?`
operator propagates an enumeration error unchanged). -/
def find_safe_to_freeze (enum : SFResult (List ProcessInfo)) (config : FreezeConfig) :
    SFResult (List ProcessInfo) :=
  match enum with
  | .ok processes =>
      .ok (processes.filter (fun p =>
        decide (config.min_memory_mb ≤ p.memory_mb)
          && p.is_safe_to_freeze config.keep_communication))
  | .error e => .error e

/-- `FreezeEngine::find_gaming_processes` from `src/freeze_engine.rs`. -/
def find_gaming_processes (enum : SFResult (List ProcessInfo)) :
    SFResult (List ProcessInfo) :=
  match enum with
  | .ok processes =>
      .ok (processes.filter (fun p => p.category == ProcessCategory.Gaming))
  | .error e => .error e

/-- `FreezeEngine::freeze_multiple` from `src/freeze_engine.rs`, with the
controller's per-pid `freeze` call passed in explicitly
(`freeze_process(pid)` simply delegates to it). -/
def freeze_multiple (freezeOp : Nat → SFResult Nat) (pids : List Nat) :
    List (Nat × SFResult Nat) :=
  pids.map (fun pid => (pid, freezeOp pid))

/-- `FreezeEngine::resume_multiple` from `src/freeze_engine.rs`. -/
def resume_multiple (resumeOp : Nat → SFResult Nat) (pids : List Nat) :
    List (Nat × SFResult Nat) :=
  pids.map (fun pid => (pid, resumeOp pid))

/-- `MAX_STATE_AGE_SECS` from `src/persistence.rs`. -/
def MAX_STATE_AGE_SECS : Nat := 3600

/-- `FrozenProcess` from `src/persistence.rs`. -/
structure FrozenProcess where
  pid : Nat
  name : String
  exe_path : String
  timestamp : Nat
deriving DecidableEq, Repr

/-- Rust release-mode `u64` wrapping subtraction `a - b`
(both operands assumed `< 2^64`, as `u64` values are). -/
def u64WrapSub (a b : Nat) : Nat :=
  (a + 2 ^ 64 - b) % 2 ^ 64

/-- `FrozenProcess::is_stale` from `src/persistence.rs`, release-mode
semantics: the source computes `now - self.timestamp` on `u64` without a
checked/saturating subtraction, which wraps modulo `2^64` when
`timestamp > now`.  `SystemTime::now()` is passed in as `now`. -/
def FrozenProcess.is_stale (p : FrozenProcess) (now : Nat) : Bool :=
  decide (u64WrapSub now p.timestamp > MAX_STATE_AGE_SECS)

/-- `FrozenProcess::is_stale`, debug-mode semantics: the unchecked `u64`
subtraction panics on underflow, so the function yields no boolean when
`timestamp > now`. -/
def FrozenProcess.is_staleChecked (p : FrozenProcess) (now : Nat) : Option Bool :=
  if p.timestamp ≤ now then some (decide (now - p.timestamp > MAX_STATE_AGE_SECS)) else none

/-- `PersistentState` from `src/persistence.rs`. -/
structure PersistentState where
  frozen_processes : List FrozenProcess
deriving DecidableEq, Repr

/-- `PersistentState::new`. -/
def PersistentState.new : PersistentState :=
  { frozen_processes := [] }

/-- `PersistentState::add` from `src/persistence.rs`: appends a
`FrozenProcess::new(pid, name, exe_path)` record stamped with the
current clock reading (passed in as `now`). -/
def PersistentState.add (s : PersistentState) (pid : Nat) (name exe_path : String)
    (now : Nat) : PersistentState :=
  { s with frozen_processes :=
      s.frozen_processes ++ [{ pid := pid, name := name, exe_path := exe_path, timestamp := now }] }

/-- `PersistentState::get_valid_processes` from `src/persistence.rs`. -/
def PersistentState.get_valid_processes (s : PersistentState) (now : Nat) :
    List FrozenProcess :=
  s.frozen_processes.filter (fun p => !p.is_stale now)

/-- `DaemonState` from `src/daemon/state.rs`.  `frozen_pids` is a
`HashSet<u32>` in the source; it is modelled as a duplicate-free list
(an arbitrary representative of the set's unspecified iteration order). -/
structure DaemonState where
  frozen_pids : List Nat
  game_detected : Bool
  enabled : Bool
deriving DecidableEq, Repr

/-- `DaemonState::new`. -/
def DaemonState.new : DaemonState :=
  { frozen_pids := [], game_detected := false, enabled := true }

/-- `DaemonState::add_frozen` (`HashSet::insert`). -/
def DaemonState.add_frozen (st : DaemonState) (pid : Nat) : DaemonState :=
  if st.frozen_pids.contains pid then st
  else { st with frozen_pids := st.frozen_pids ++ [pid] }

/-- The OS / persistence calls one iteration of `monitor_loop`
(`src/daemon/service.rs`) makes, in order.  `persistAdd` records exactly
the two arguments the source call site
`persistent_state.add(process.pid, process.name.clone())` supplies. -/
inductive TickAction where
  | froze (pid : Nat)
  | freezeFailed (pid : Nat)
  | persistAdd (pid : Nat) (name : String)
  | stateSaved
  | stateSaveFailed
  | resumed (pid : Nat)
  | resumeFailed (pid : Nat)
deriving DecidableEq, Repr

/-- The tick's environment: the outcomes of the OS calls the loop body
may make.  `gamingEnum` is the enumeration backing
`find_gaming_processes()`, `safeEnum` the (separate) enumeration backing
`find_safe_to_freeze()`; `freezeRes`/`resumeRes` are the controller's
per-pid outcomes, `saveOk` the persistence save outcome. -/
structure TickEnv where
  gamingEnum : SFResult (List ProcessInfo)
  safeEnum : SFResult (List ProcessInfo)
  freezeRes : Nat → SFResult Nat
  resumeRes : Nat → SFResult Nat
  saveOk : Bool

/-- One iteration of the `loop` body of `monitor_loop`
(`src/daemon/service.rs`, after the sleep and lock acquisition),
returning the updated `DaemonState` and the ordered list of OS /
persistence calls performed. -/
def monitorTick (env : TickEnv) (st : DaemonState) (config : FreezeConfig) :
    DaemonState × List TickAction :=
  if !st.enabled then (st, [])
  else
    let gaming_running :=
      match find_gaming_processes env.gamingEnum with
      | .ok procs => !procs.isEmpty
      | .error _ => false
    if gaming_running && !st.game_detected then
      let st1 := { st with game_detected := true }
      match find_safe_to_freeze env.safeEnum config with
      | .ok safe =>
          let folded := safe.foldl
            (fun (acc : DaemonState × List TickAction) p =>
              match env.freezeRes p.pid with
              | .ok _ =>
                  (acc.1.add_frozen p.pid,
                   acc.2 ++ [TickAction.froze p.pid, TickAction.persistAdd p.pid p.name])
              | .error _ => (acc.1, acc.2 ++ [TickAction.freezeFailed p.pid]))
            (st1, [])
          (folded.1,
           folded.2 ++ [if env.saveOk then TickAction.stateSaved else TickAction.stateSaveFailed])
      | .error _ => (st1, [])
    else if !gaming_running && st.game_detected then
      let st1 := { st with game_detected := false }
      let pids := st1.frozen_pids
      let st2 := { st1 with frozen_pids := [] }
      let acts := pids.map (fun pid =>
        match env.resumeRes pid with
        | .ok _ => TickAction.resumed pid
        | .error _ => TickAction.resumeFailed pid)
      (st2, acts ++ [if env.saveOk then TickAction.stateSaved else TickAction.stateSaveFailed])
    else (st, [])

/-- The calls `recover_from_crash` (`src/daemon/service.rs`) makes. -/
inductive RecoveryAction where
  | resumedRec (f : FrozenProcess)
  | resumeFailedRec (f : FrozenProcess)
  | deletedStateFile
deriving DecidableEq, Repr

/-- The per-record resume attempt of the recovery loop. -/
def recoveryAttempt (resumeRes : Nat → SFResult Nat) (f : FrozenProcess) :
    RecoveryAction :=
  match resumeRes f.pid with
  | .ok _ => RecoveryAction.resumedRec f
  | .error _ => RecoveryAction.resumeFailedRec f

/-- `recover_from_crash` from `src/daemon/service.rs`, with the
persistence `load()` outcome, the controller's per-pid `resume`
outcomes and the clock reading passed in explicitly.  Returns the
ordered list of calls performed.  The `delete()` call sits inside the
`if let Ok(Some(old_state))` block of the source, so it is reached only
on a successful load of an existing file. -/
def recover_from_crash (loadRes : SFResult (Option PersistentState))
    (resumeRes : Nat → SFResult Nat) (now : Nat) : List RecoveryAction :=
  match loadRes with
  | .ok (some old_state) =>
      let valid := old_state.get_valid_processes now
      let acts :=
        if valid.isEmpty then []
        else valid.map (fun f => recoveryAttempt resumeRes f)
      acts ++ [RecoveryAction.deletedStateFile]
  | .ok none => []
  | .error _ => []

/-- Unfolding of the selection policy: the four conjuncts of
`is_safe_to_freeze` as propositions. -/
theorem is_safe_to_freeze_iff (p : ProcessInfo) (kc : Bool) :
    p.is_safe_to_freeze kc = true ↔
      (p.is_foreground = false ∧
       p.category ≠ ProcessCategory.Critical ∧
       p.category ≠ ProcessCategory.Gaming ∧
       ¬(kc = true ∧ p.category = ProcessCategory.Communication)) := by
  obtain ⟨pid, name, path, mem, fg, cat⟩ := p
  cases fg <;> cases kc <;> cases cat <;>
    simp [ProcessInfo.is_safe_to_freeze]

/-- C1: `isSafeToFreeze(r, keepCommunication)` returns true iff `r` is
not foreground, its category is neither `Critical` nor `Gaming`, and it
is not the case that `keepCommunication` is set with category
`Communication`.  Totality over every `ProcessRecord` and absence of
side effects hold by construction: the embedded function is a total pure
function on all of `ProcessInfo × Bool`, exactly as the source computes
a `bool` from `&self` without mutation. -/
theorem C1_is_safe_to_freeze_correct (r : ProcessInfo) (keepCommunication : Bool) :
    r.is_safe_to_freeze keepCommunication = true ↔
      (r.is_foreground = false ∧
       r.category ≠ ProcessCategory.Critical ∧
       r.category ≠ ProcessCategory.Gaming ∧
       ¬(keepCommunication = true ∧ r.category = ProcessCategory.Communication)) :=
  is_safe_to_freeze_iff r keepCommunication

/-- C1 witness: the characterisation evaluated on a concrete
non-foreground `Productivity` process with `keepCommunication = false`. -/
theorem C1_is_safe_to_freeze_correct_witness :
    (ProcessInfo.mk 7 "chrome.exe" "C:\\x\\chrome.exe" 300 false
        ProcessCategory.Productivity).is_safe_to_freeze false = true ↔
      (false = false ∧
       ProcessCategory.Productivity ≠ ProcessCategory.Critical ∧
       ProcessCategory.Productivity ≠ ProcessCategory.Gaming ∧
       ¬(false = true ∧ ProcessCategory.Productivity = ProcessCategory.Communication)) :=
  C1_is_safe_to_freeze_correct
    (ProcessInfo.mk 7 "chrome.exe" "C:\\x\\chrome.exe" 300 false
      ProcessCategory.Productivity) false

/-- C4: `freeze_multiple` / `resume_multiple` return one `(pid, result)`
entry per input pid, in input order, each entry being the single-pid
operation applied to that pid; every entry is produced regardless of the
outcomes at the other pids (the `i`-th output depends only on `pids[i]`),
so one failure never prevents the remaining pids from being attempted
and reported. -/
theorem C4_batch_operations_correct (freezeOp resumeOp : Nat → SFResult Nat)
    (pids : List Nat) (i : Nat) :
    (freeze_multiple freezeOp pids).length = pids.length ∧
    (resume_multiple resumeOp pids).length = pids.length ∧
    (freeze_multiple freezeOp pids)[i]? = (pids[i]?).map (fun pid => (pid, freezeOp pid)) ∧
    (resume_multiple resumeOp pids)[i]? = (pids[i]?).map (fun pid => (pid, resumeOp pid)) := by
  refine ⟨?_, ?_, ?_, ?_⟩ <;>
    simp [freeze_multiple, resume_multiple]

/-- C10: `categorize` depends only on `name` and `path`: the pid argument
and the categorizer's `parent_map` contents (hence `update_parent_map`
history) never influence the result, so the parent-based "launched by a
known launcher implies Gaming" enrichment is never applied. -/
theorem C10_categorize_ignores_pid_and_parent_map
    (c₁ c₂ : DefaultCategorizer) (pid₁ pid₂ : Nat) (name path : String) :
    c₁.categorize pid₁ name path = c₂.categorize pid₂ name path := rfl

/-- The 50 MB process of the memory-filter scenario
(`test_find_safe_to_freeze_filters_by_memory`). -/
def lowMemProc : ProcessInfo :=
  { pid := 1, name := "low_mem.exe", full_path := "C:\\Test\\low_mem.exe",
    memory_mb := 50, is_foreground := false, category := ProcessCategory.Productivity }

/-- The 200 MB process of the memory-filter scenario. -/
def highMemProc : ProcessInfo :=
  { pid := 2, name := "high_mem.exe", full_path := "C:\\Test\\high_mem.exe",
    memory_mb := 200, is_foreground := false, category := ProcessCategory.Productivity }

/-- C2: on a successful enumeration, `find_safe_to_freeze` returns
exactly the enumerated processes with `memory ≥ minMemoryMB` that
satisfy `isSafeToFreeze`, in enumeration order (the result is a sublist
of the enumeration); no returned process is foreground, `Critical` or
`Gaming`; and on the concrete 50 MB / 200 MB enumeration with
`minMemoryMB = 100` only the 200 MB process is returned. -/
theorem C2_find_safe_to_freeze_correct
    (ps res : List ProcessInfo) (cfg : FreezeConfig) (p : ProcessInfo)
    (h : find_safe_to_freeze (Except.ok ps) cfg = Except.ok res) :
    List.Sublist res ps ∧
    (p ∈ res ↔ p ∈ ps ∧ cfg.min_memory_mb ≤ p.memory_mb ∧
       p.is_safe_to_freeze cfg.keep_communication = true) ∧
    (p ∈ res → p.is_foreground = false ∧ p.category ≠ ProcessCategory.Critical ∧
       p.category ≠ ProcessCategory.Gaming) ∧
    find_safe_to_freeze (Except.ok [lowMemProc, highMemProc])
        { min_memory_mb := 100, keep_communication := false }
      = Except.ok [highMemProc] := by
  have hres : res = ps.filter (fun q =>
      decide (cfg.min_memory_mb ≤ q.memory_mb)
        && q.is_safe_to_freeze cfg.keep_communication) := by
    simpa [find_safe_to_freeze] using h.symm
  subst hres
  refine ⟨List.filter_sublist ps, ?_, ?_, by rfl⟩
  · simp [List.mem_filter]
  · intro hp
    rw [List.mem_filter] at hp
    have hsafe : p.is_safe_to_freeze cfg.keep_communication = true := by
      have := hp.2
      simp only [Bool.and_eq_true] at this
      exact this.2
    have := (is_safe_to_freeze_iff p cfg.keep_communication).mp hsafe
    exact ⟨this.1, this.2.1, this.2.2.1⟩

/-- C2 witness: the memory-filter scenario, with the hypothesis
discharged by evaluation and the membership conjunct instantiated at the
200 MB process. -/
theorem C2_find_safe_to_freeze_correct_witness :
    find_safe_to_freeze (Except.ok [lowMemProc, highMemProc])
        { min_memory_mb := 100, keep_communication := false }
      = Except.ok [highMemProc] ∧
    (highMemProc ∈ [highMemProc] ↔ highMemProc ∈ [lowMemProc, highMemProc] ∧
       100 ≤ highMemProc.memory_mb ∧ highMemProc.is_safe_to_freeze false = true) :=
  ⟨by rfl,
   (C2_find_safe_to_freeze_correct [lowMemProc, highMemProc] [highMemProc]
      { min_memory_mb := 100, keep_communication := false } highMemProc (by rfl)).2.1⟩

/-- C3 counterexample: the claim asserts
`categorize(pid, "discord.exe", path) = Communication` for every path,
but a path matching the gaming-directory list wins at the earlier
gaming-by-path step, so at the concrete input
`path = "C:\steam\discord.exe"` the result is `Gaming`, not
`Communication`. -/
theorem C3_counterexample :
    (DefaultCategorizer.mk []).categorize 1234 "discord.exe" "C:\\steam\\discord.exe"
        = ProcessCategory.Gaming ∧
    (DefaultCategorizer.mk []).categorize 1234 "discord.exe" "C:\\steam\\discord.exe"
        ≠ ProcessCategory.Communication := by
  constructor <;> decide

/-- C3 (amended): `categorize(pid, "discord.exe", path) = Communication`
for every path that does not match the gaming-directory list;
`categorize(pid, "explorer.exe", path) = Critical` for every path;
`categorize(pid, "unknown.exe", "C:\Some\Path") = Unknown`; and
classification is evaluated in strict precedence order with first match
winning: critical-name list, then gaming (by path or by name), then
communication, then background-service, then productivity, defaulting
to `Unknown`. -/
theorem C3_categorize_amended
    (c : DefaultCategorizer) (pid : Nat) (name path gpath : String)
    (hpath : is_gaming_by_path path = false) :
    c.categorize pid "discord.exe" path = ProcessCategory.Communication ∧
    c.categorize pid "explorer.exe" gpath = ProcessCategory.Critical ∧
    c.categorize pid "unknown.exe" "C:\\Some\\Path" = ProcessCategory.Unknown ∧
    (is_critical name = true → c.categorize pid name gpath = ProcessCategory.Critical) ∧
    (is_critical name = false →
       (is_gaming_by_path gpath || is_gaming_by_name name) = true →
       c.categorize pid name gpath = ProcessCategory.Gaming) ∧
    (is_critical name = false → is_gaming_by_path gpath = false →
       is_gaming_by_name name = false → is_communication name = true →
       c.categorize pid name gpath = ProcessCategory.Communication) ∧
    (is_critical name = false → is_gaming_by_path gpath = false →
       is_gaming_by_name name = false → is_communication name = false →
       is_background_service name = true →
       c.categorize pid name gpath = ProcessCategory.BackgroundService) ∧
    (is_critical name = false → is_gaming_by_path gpath = false →
       is_gaming_by_name name = false → is_communication name = false →
       is_background_service name = false → is_productivity name = true →
       c.categorize pid name gpath = ProcessCategory.Productivity) ∧
    (is_critical name = false → is_gaming_by_path gpath = false →
       is_gaming_by_name name = false → is_communication name = false →
       is_background_service name = false → is_productivity name = false →
       c.categorize pid name gpath = ProcessCategory.Unknown) := by
  refine ⟨?_, ?_, ?_, ?_, ?_, ?_, ?_, ?_, ?_⟩
  · simp [DefaultCategorizer.categorize, hpath,
      show is_critical "discord.exe" = false from by decide,
      show is_gaming_by_name "discord.exe" = false from by decide,
      show is_communication "discord.exe" = true from by decide]
  · simp [DefaultCategorizer.categorize,
      show is_critical "explorer.exe" = true from by decide]
  · simp [DefaultCategorizer.categorize,
      show is_critical "unknown.exe" = false from by decide,
      show is_gaming_by_path "C:\\Some\\Path" = false from by decide,
      show is_gaming_by_name "unknown.exe" = false from by decide,
      show is_communication "unknown.exe" = false from by decide,
      show is_background_service "unknown.exe" = false from by decide,
      show is_productivity "unknown.exe" = false from by decide]
  · intro h; simp [DefaultCategorizer.categorize, h]
  · intro h1 h2; simp [DefaultCategorizer.categorize, h1, h2]
  · intro h1 h2 h3 h4; simp [DefaultCategorizer.categorize, h1, h2, h3, h4]
  · intro h1 h2 h3 h4 h5; simp [DefaultCategorizer.categorize, h1, h2, h3, h4, h5]
  · intro h1 h2 h3 h4 h5 h6; simp [DefaultCategorizer.categorize, h1, h2, h3, h4, h5, h6]
  · intro h1 h2 h3 h4 h5 h6; simp [DefaultCategorizer.categorize, h1, h2, h3, h4, h5, h6]

/-- C3 witness: the amended statement applied at a concrete
non-gaming path, with the `discord.exe` conjunct extracted. -/
theorem C3_categorize_amended_witness :
    is_gaming_by_path "C:\\Users\\u\\discord.exe" = false ∧
    (DefaultCategorizer.mk []).categorize 1234 "discord.exe" "C:\\Users\\u\\discord.exe"
      = ProcessCategory.Communication :=
  ⟨by decide,
   (C3_categorize_amended (DefaultCategorizer.mk []) 1234 "chrome.exe"
      "C:\\Users\\u\\discord.exe" "D:\\anything" (by decide)).1⟩

/-- A persisted record stamped at epoch time 0 (`timestamp = 0`). -/
def epochRec : FrozenProcess :=
  ⟨1, "old.exe", "C:\\old.exe", 0⟩

/-- A persisted record stamped at the largest `u64` time. -/
def maxTimeRec : FrozenProcess :=
  ⟨1, "future.exe", "C:\\future.exe", 2 ^ 64 - 1⟩

/-- A persisted record stamped at time 100. -/
def time100Rec : FrozenProcess :=
  ⟨1, "future.exe", "C:\\future.exe", 100⟩

/-- C6 counterexample: the claim asserts a record with `timestamp = 0`
is excluded from `getValidProcesses` at any later `now`, but at
`now = 1` the age is `1 ≤ 3600`, the record is not stale, and
`get_valid_processes` keeps it. -/
theorem C6_counterexample :
    epochRec.is_stale 1 = false ∧
    epochRec ∈ PersistentState.get_valid_processes ⟨[epochRec]⟩ 1 := by
  constructor <;> decide

/-- C6 (amended): for every record whose timestamp is at most the
evaluation time `now` (both `u64` values), the record is stale exactly
when `now − timestamp > 3600`; `getValidProcesses` returns exactly the
non-stale records in their stored order; and a record with
`timestamp = 0` is excluded at any `now > 3600` (not at every later
`now`: for `0 < now ≤ 3600` it is still returned). -/
theorem C6_staleness_amended
    (p q : FrozenProcess) (s : PersistentState) (now : Nat)
    (hts : p.timestamp ≤ now) (hnow : now < 2 ^ 64) :
    (p.is_stale now = true ↔ now - p.timestamp > 3600) ∧
    List.Sublist (s.get_valid_processes now) s.frozen_processes ∧
    (q ∈ s.get_valid_processes now ↔ q ∈ s.frozen_processes ∧ q.is_stale now = false) ∧
    (p.timestamp = 0 → 3600 < now → p.is_stale now = true) := by
  have hiff : p.is_stale now = true ↔ now - p.timestamp > 3600 := by
    simp only [FrozenProcess.is_stale, u64WrapSub, MAX_STATE_AGE_SECS,
      decide_eq_true_eq]
    omega
  refine ⟨hiff, ?_, ?_, ?_⟩
  · exact List.filter_sublist s.frozen_processes
  · simp [PersistentState.get_valid_processes, List.mem_filter]
  · intro h0 hbig
    rw [hiff, h0]
    omega

/-- C6 witness: the amended staleness characterisation at a concrete
record with `timestamp = 0` evaluated at `now = 4000`. -/
theorem C6_staleness_amended_witness :
    (epochRec.timestamp ≤ 4000 ∧ (4000 : Nat) < 2 ^ 64) ∧
    (epochRec.is_stale 4000 = true ↔ 4000 - epochRec.timestamp > 3600) :=
  ⟨⟨by decide, by norm_num⟩,
   (C6_staleness_amended epochRec epochRec ⟨[]⟩ 4000 (by decide) (by norm_num)).1⟩

/-- C9 counterexample: the claim asserts every future-dated record
(`timestamp > now`) classifies as stale under the release-mode wrapped
subtraction, but at `timestamp = 2^64 − 1`, `now = 0` the wrap yields
`1 ≤ 3600`, so `is_stale` is `false`. -/
theorem C9_counterexample :
    (0 : Nat) < maxTimeRec.timestamp ∧
    maxTimeRec.is_stale 0 = false := by
  constructor
  · norm_num [maxTimeRec]
  · simp only [FrozenProcess.is_stale, u64WrapSub, MAX_STATE_AGE_SECS,
      maxTimeRec, decide_eq_true_eq, decide_eq_false_iff_not]
    omega

/-- C9 (amended): `is_stale` computes `now − timestamp` with unchecked
unsigned 64-bit subtraction; for every record whose timestamp is
strictly greater than the current time, the subtraction underflows, so
the debug-mode checked computation yields no result (panic), and in
release builds the wrapped value classifies the record as stale exactly
when `timestamp − now < 2^64 − 3600` (every realistic clock skew) — a
timestamp within 3600 of wrapping all the way around classifies as not
stale instead. -/
theorem C9_underflow_amended
    (p : FrozenProcess) (now : Nat)
    (hfuture : now < p.timestamp) (hts : p.timestamp < 2 ^ 64) :
    p.is_staleChecked now = none ∧
    (p.is_stale now = true ↔ p.timestamp - now < 2 ^ 64 - 3600) := by
  constructor
  · simp [FrozenProcess.is_staleChecked, Nat.not_le.mpr hfuture]
  · simp only [FrozenProcess.is_stale, u64WrapSub, MAX_STATE_AGE_SECS,
      decide_eq_true_eq]
    omega

/-- C9 witness: a record stamped 100 evaluated at `now = 50`: the
checked subtraction yields no result and the release-mode wrap
classifies it as stale. -/
theorem C9_underflow_amended_witness :
    ((50 : Nat) < time100Rec.timestamp ∧ time100Rec.timestamp < 2 ^ 64) ∧
    (time100Rec.is_staleChecked 50 = none ∧
     (time100Rec.is_stale 50 = true ↔ time100Rec.timestamp - 50 < 2 ^ 64 - 3600)) :=
  ⟨⟨by decide, by norm_num [time100Rec]⟩,
   C9_underflow_amended time100Rec 50 (by decide) (by norm_num [time100Rec])⟩

/-- A tick environment in which the gaming-process enumeration fails
and every controller call succeeds with one affected thread. -/
def envFailEnum : TickEnv where
  gamingEnum := Except.error (SmartFreezeError.ProcessEnumeration "snapshot failed")
  safeEnum := Except.ok []
  freezeRes := fun _ => Except.ok 1
  resumeRes := fun _ => Except.ok 1
  saveOk := true

/-- A daemon state in the `GameActive` configuration with pid 5 frozen. -/
def stGameActive : DaemonState :=
  ⟨[5], true, true⟩

/-- C7 counterexample: the claim asserts an enumeration failure leaves
`gameDetected` and `frozenPids` unchanged and resumes nothing, but when
the failure hits while `gameDetected = true` the loop takes the
GameActive→Idle branch: `gameDetected` flips, `frozenPids` is drained
and a resume is attempted. -/
theorem C7_counterexample :
    (monitorTick envFailEnum stGameActive ⟨100, false⟩).1.game_detected
        ≠ stGameActive.game_detected ∧
    (monitorTick envFailEnum stGameActive ⟨100, false⟩).1.frozen_pids
        ≠ stGameActive.frozen_pids ∧
    (monitorTick envFailEnum stGameActive ⟨100, false⟩).2
        = [TickAction.resumed 5, TickAction.stateSaved] := by
  refine ⟨by decide, by decide, by rfl⟩

/-- C7 (amended): a failed gaming-process enumeration is mapped to
`gaming_running = false` (not to "no data").  On an enabled tick with
`gameDetected = false` this indeed causes no transition: the state is
unchanged and no process is frozen or resumed, and the (infinite) loop
simply retries next tick.  But with `gameDetected = true` the same
failure triggers the GameActive→Idle transition: every frozen pid gets
a resume attempt, `frozenPids` is drained and `gameDetected` is reset,
followed by a persisted-state overwrite. -/
theorem C7_enumeration_failure_amended
    (env : TickEnv) (st : DaemonState) (cfg : FreezeConfig) (e : SmartFreezeError)
    (henum : env.gamingEnum = Except.error e) (hen : st.enabled = true) :
    (st.game_detected = false → monitorTick env st cfg = (st, [])) ∧
    (st.game_detected = true →
      monitorTick env st cfg =
        ({ st with game_detected := false, frozen_pids := [] },
         st.frozen_pids.map (fun pid =>
           match env.resumeRes pid with
           | .ok _ => TickAction.resumed pid
           | .error _ => TickAction.resumeFailed pid)
         ++ [if env.saveOk then TickAction.stateSaved else TickAction.stateSaveFailed])) := by
  constructor
  · intro hgd
    simp [monitorTick, hen, henum, hgd, find_gaming_processes]
  · intro hgd
    simp [monitorTick, hen, henum, hgd, find_gaming_processes]

/-- C7 witness: the amended statement at the concrete failing
environment in the Idle state: the tick is a no-op. -/
theorem C7_enumeration_failure_amended_witness :
    (envFailEnum.gamingEnum
        = Except.error (SmartFreezeError.ProcessEnumeration "snapshot failed") ∧
     DaemonState.new.enabled = true) ∧
    (DaemonState.new.game_detected = false →
      monitorTick envFailEnum DaemonState.new ⟨100, false⟩ = (DaemonState.new, [])) :=
  ⟨⟨by rfl, by rfl⟩,
   (C7_enumeration_failure_amended envFailEnum DaemonState.new ⟨100, false⟩
      (SmartFreezeError.ProcessEnumeration "snapshot failed") (by rfl) (by rfl)).1⟩

/-- The per-record resume attempt of `recoveryAttempt` hits `resumedRec`
only for the record it was applied to. -/
theorem recoveryAttempt_eq_resumedRec {r : Nat → SFResult Nat} {q p : FrozenProcess}
    (h : recoveryAttempt r q = RecoveryAction.resumedRec p) : q = p := by
  unfold recoveryAttempt at h
  rcases hr : r q.pid with _ | _ <;> rw [hr] at h <;> simp_all

/-- The per-record resume attempt hits `resumeFailedRec` only for the
record it was applied to. -/
theorem recoveryAttempt_eq_resumeFailedRec {r : Nat → SFResult Nat} {q p : FrozenProcess}
    (h : recoveryAttempt r q = RecoveryAction.resumeFailedRec p) : q = p := by
  unfold recoveryAttempt at h
  rcases hr : r q.pid with _ | _ <;> rw [hr] at h <;> simp_all

/-- C8 counterexample: the claim asserts the persisted file is deleted
regardless of the outcome of loading, but when `load()` itself fails
(e.g. a corrupted JSON file) the `if let Ok(Some(..))` block is skipped
entirely: no delete call is made (and recovery will thus be re-attempted
on the next startup). -/
theorem C8_counterexample :
    RecoveryAction.deletedStateFile ∉
      recover_from_crash (Except.error (SmartFreezeError.IoError "corrupted state file"))
        (fun _ => Except.ok 1) 1000 := by
  decide

/-- C8 (amended): on startup, when loading succeeds with a persisted
state, resume is attempted exactly once per non-stale record in stored
order and never for a stale record, and the file is deleted afterward
regardless of the resume outcomes (also when there is no valid record);
when the file is absent nothing happens; but when loading itself fails
the file is NOT deleted — deletion happens only on a successful load. -/
theorem C8_recovery_amended
    (old : PersistentState) (resumeRes : Nat → SFResult Nat) (now : Nat)
    (e : SmartFreezeError) (p : FrozenProcess) :
    (recover_from_crash (Except.ok (some old)) resumeRes now =
      (old.frozen_processes.filter (fun q => !q.is_stale now)).map
        (recoveryAttempt resumeRes) ++ [RecoveryAction.deletedStateFile]) ∧
    (p.is_stale now = true →
       RecoveryAction.resumedRec p ∉
         recover_from_crash (Except.ok (some old)) resumeRes now ∧
       RecoveryAction.resumeFailedRec p ∉
         recover_from_crash (Except.ok (some old)) resumeRes now) ∧
    (recover_from_crash (Except.ok none) resumeRes now = []) ∧
    (recover_from_crash (Except.error e) resumeRes now = []) := by
  have heq : recover_from_crash (Except.ok (some old)) resumeRes now =
      (old.frozen_processes.filter (fun q => !q.is_stale now)).map
        (recoveryAttempt resumeRes) ++ [RecoveryAction.deletedStateFile] := by
    simp only [recover_from_crash, PersistentState.get_valid_processes]
    split
    · rename_i hempty
      rw [List.isEmpty_iff] at hempty
      rw [hempty]
      simp
    · rfl
  refine ⟨heq, ?_, by rfl, by rfl⟩
  intro hstale
  rw [heq]
  constructor
  · intro hmem
    rcases List.mem_append.mp hmem with hmem | hmem
    · rcases List.mem_map.mp hmem with ⟨q, hq, hqe⟩
      rcases recoveryAttempt_eq_resumedRec hqe
      rw [List.mem_filter] at hq
      simp [hstale] at hq
    · simp at hmem
  · intro hmem
    rcases List.mem_append.mp hmem with hmem | hmem
    · rcases List.mem_map.mp hmem with ⟨q, hq, hqe⟩
      rcases recoveryAttempt_eq_resumeFailedRec hqe
      rw [List.mem_filter] at hq
      simp [hstale] at hq
    · simp at hmem

/-- C8 witness: recovery applied to a state holding one fresh record
(stamped 4000) and one epoch-stamped record at `now = 8000`: one resume
attempt on the fresh record, none on the stale one, then the delete. -/
theorem C8_recovery_amended_witness :
    epochRec.is_stale 8000 = true ∧
    (RecoveryAction.resumedRec epochRec ∉
       recover_from_crash (Except.ok (some ⟨[⟨9, "f.exe", "C:\\f.exe", 4000⟩, epochRec]⟩))
         (fun _ => Except.ok 1) 8000 ∧
     RecoveryAction.resumeFailedRec epochRec ∉
       recover_from_crash (Except.ok (some ⟨[⟨9, "f.exe", "C:\\f.exe", 4000⟩, epochRec]⟩))
         (fun _ => Except.ok 1) 8000) :=
  ((C8_recovery_amended ⟨[⟨9, "f.exe", "C:\\f.exe", 4000⟩, epochRec]⟩
      (fun _ => Except.ok 1) 8000 (SmartFreezeError.IoError "x") epochRec).2.1
    (by decide)) |> fun h => ⟨by decide, h⟩

/-- A running gaming process (as in the end-to-end scenario). -/
def steamProc : ProcessInfo :=
  { pid := 1, name := "steam.exe", full_path := "C:\\Program Files\\Steam\\steam.exe",
    memory_mb := 150, is_foreground := false, category := ProcessCategory.Gaming }

/-- A freezable background browser process. -/
def chromeProc : ProcessInfo :=
  { pid := 2, name := "chrome.exe", full_path := "C:\\Test\\chrome.exe",
    memory_mb := 300, is_foreground := false, category := ProcessCategory.Productivity }

/-- A tick environment for the Idle→GameActive transition: both
enumerations see `steamProc` and `chromeProc`, every controller call
succeeds, and the persistence save succeeds. -/
def envGameStart : TickEnv where
  gamingEnum := Except.ok [steamProc, chromeProc]
  safeEnum := Except.ok [steamProc, chromeProc]
  freezeRes := fun _ => Except.ok 1
  resumeRes := fun _ => Except.ok 1
  saveOk := true

/-- C5 evaluation at the failing input: on the Idle→GameActive
transition the successfully frozen pid 2 is added to `frozenPids` and
the persistence call the source makes for it is
`persistent_state.add(process.pid, process.name.clone())` — it supplies
only the pid and the name (`persistAdd 2 "chrome.exe"`), with no
`exe_path` argument, although `PersistentState::add`
(`src/persistence.rs:63`) requires one; the state is then saved.  This
exhibits the arity mismatch behind the C5 code bug: the appended record
cannot contain the process's `exePath`, because the call site never
passes it. -/
theorem C5_freeze_transition_eval :
    monitorTick envGameStart DaemonState.new ⟨100, false⟩ =
      (⟨[2], true, true⟩,
       [TickAction.froze 2, TickAction.persistAdd 2 "chrome.exe",
        TickAction.stateSaved]) := by
  rfl
